import Mathlib

/- Verification development for the installation-symbol detection service.
   The definitions below are a shallow embedding of the source module
   (pattern tables, geometry classifier, matchers, merger, orchestrator).
   Python floats are modelled as real numbers; a Python ZeroDivisionError
   (which the request handler turns into a service error) is modelled by
   the Except error value. -/

namespace InstallationAPI

structure Pt where
  x : ℝ
  y : ℝ

structure Bbox where
  x0 : ℝ
  y0 : ℝ
  x1 : ℝ
  y1 : ℝ

/-- Rectangle drawing item: the source reads the coordinate fields and the
    width and height fields independently from the input record. -/
structure RectD where
  x0 : ℝ
  y0 : ℝ
  x1 : ℝ
  y1 : ℝ
  width : ℝ
  height : ℝ

structure CurveD where
  p1 : Pt
  p2 : Pt
  p3 : Pt

structure LineD where
  p1 : Pt
  p2 : Pt

inductive DrawingItem where
  | rect (r : RectD)
  | curve (p1 p2 p3 : Pt)
  | line (p1 p2 : Pt)

structure TextItem where
  text : String
  bbox : Bbox

structure PageData where
  page_number : Int
  texts : List TextItem
  rectangles : List RectD
  curves : List CurveD
  lines : List LineD

/-- Keyword table INSTALLATION_PATTERNS, in declaration order. -/
def INSTALLATION_PATTERNS : List (String × List String) :=
  [ ("WCD", ["WCD", "STOPCONTACT", "OUTLET", "SOCKET", "WANDCONTACTDOOS"]),
    ("LICHTPUNT", ["LICHTPUNT", "LIGHT", "VERLICHTING", "LAMP", "PL", "TL", "CEILING LIGHT"]),
    ("SCHAKELAAR", ["SCHAKELAAR", "SWITCH", "LIGHT SWITCH", "DIMMER", "SW"]),
    ("MV", ["MV", "MECHANISCHE VENTILATIE", "VENTILATIE", "AFZUIGING", "VENTILATION", "EXTRACTION"]),
    ("CAI", ["CAI", "TV", "ANTENNE", "CABLE", "ANTENNA", "COAX"]),
    ("DATA", ["DATA", "UTP", "RJ45", "INTERNET", "NETWERK", "NETWORK"]),
    ("THERMOSTAAT", ["THERMOSTAAT", "THERMOSTAT", "TEMP", "TEMPERATURE", "TEMP CONTROL"]),
    ("ALARM", ["ALARM", "SMOKE", "ROOKMELDER", "BRANDMELDER", "SMOKE DETECTOR", "FIRE ALARM"]),
    ("BELL", ["BELL", "DEURBEL", "DOORBELL", "CHIME", "GONG"]),
    ("WATERTAP", ["KRAAN", "TAP", "WATER", "WATERTAPPUNT", "WATER SUPPLY"]),
    ("DRAIN", ["AFVOER", "DRAIN", "WATER DRAIN", "GOOTSTEEN", "SINK"]),
    ("HRU", ["HRU", "HEAT RECOVERY", "WARMTE TERUGWINNING", "WTW"]),
    ("HEATING", ["CV", "RADIATOR", "VERWARMING", "HEATING", "BOILER"]),
    ("PV", ["PV", "SOLAR", "ZONNEPANEEL", "SOLARPANEL"]) ]

structure LabelInfo where
  label_code : String
  label_type : String
  label_nl : String
  label_en : String
  deriving DecidableEq

/-- Label table INSTALLATION_MAPPING, in declaration order. -/
def INSTALLATION_MAPPING : List (String × LabelInfo) :=
  [ ("WCD", ⟨"EI01", "installation", "Elektrainstallatie_stopcontact", "Electrical_installation_outlet"⟩),
    ("LICHTPUNT", ⟨"EI02", "installation", "Elektrainstallatie_lichtpunt", "Electrical_installation_light"⟩),
    ("SCHAKELAAR", ⟨"EI03", "installation", "Elektrainstallatie_schakelaar", "Electrical_installation_switch"⟩),
    ("MV", ⟨"HVAC01", "installation", "Klimaatinstallatie_ventilatie", "HVAC_ventilation"⟩),
    ("CAI", ⟨"EI04", "installation", "Elektrainstallatie_cai", "Electrical_installation_cable"⟩),
    ("DATA", ⟨"EI05", "installation", "Elektrainstallatie_data", "Electrical_installation_data"⟩),
    ("THERMOSTAAT", ⟨"HVAC02", "installation", "Klimaatinstallatie_thermostaat", "HVAC_thermostat"⟩),
    ("ALARM", ⟨"FS01", "installation", "Brandveiligheidstoestel", "Fire_safety_device"⟩),
    ("BELL", ⟨"EI06", "installation", "Elektrainstallatie_bel", "Electrical_installation_bell"⟩),
    ("WATERTAP", ⟨"WI01", "installation", "Waterinstallatie_tap", "Water_installation_tap"⟩),
    ("DRAIN", ⟨"WI02", "installation", "Waterinstallatie_afvoer", "Water_installation_drain"⟩),
    ("HRU", ⟨"HVAC03", "installation", "Klimaatinstallatie_wtw", "HVAC_heat_recovery"⟩),
    ("HEATING", ⟨"HVAC04", "installation", "Klimaatinstallatie_verwarming", "HVAC_heating"⟩),
    ("PV", ⟨"PV01", "installation", "Zonnepanelen_zone", "PV_zone"⟩) ]

/-- Fallback bundle used by the mapping lookups (the dict default argument). -/
def UNKNOWN_INFO : LabelInfo :=
  ⟨"UNKNOWN", "installation", "Onbekende_installatie", "Unknown_installation"⟩

/-- INSTALLATION_MAPPING.get with the UNKNOWN default. -/
def mappingGet (t : String) : LabelInfo :=
  (INSTALLATION_MAPPING.lookup t).getD UNKNOWN_INFO

open Classical

/-- Euclidean distance between two points. -/
noncomputable def distance (p1 p2 : Pt) : ℝ :=
  Real.sqrt ((p2.x - p1.x) ^ 2 + (p2.y - p1.y) ^ 2)

/-- The three-point centroid computed as center_x, center_y in the source. -/
noncomputable def curveCenter (p1 p2 p3 : Pt) : Pt :=
  ⟨(p1.x + p2.x + p3.x) / 3, (p1.y + p2.y + p3.y) / 3⟩

/-- Circle test on a curve item.  Dividing by the average distance without a
    guard: when the average is zero the source raises ZeroDivisionError,
    modelled here by the error value. -/
noncomputable def is_circle : DrawingItem → Except Unit Bool
  | DrawingItem.curve p1 p2 p3 =>
      let c := curveCenter p1 p2 p3
      let d1 := distance c p1
      let d2 := distance c p2
      let d3 := distance c p3
      let avg := (d1 + d2 + d3) / 3
      if avg = 0 then Except.error ()
      else if |d1 - avg| / avg < 0.2 ∧ |d2 - avg| / avg < 0.2 ∧ |d3 - avg| / avg < 0.2 then
        Except.ok true
      else Except.ok false
  | _ => Except.ok false

/-- Shape classifier.  The rectangle branch divides width by height with no
    guard: height zero raises ZeroDivisionError in the source, modelled by
    the error value. -/
noncomputable def get_symbol_shape : DrawingItem → Except Unit String
  | DrawingItem.rect r =>
      if r.height = 0 then Except.error ()
      else if 0.8 ≤ r.width / r.height ∧ r.width / r.height ≤ 1.2 then Except.ok "square"
      else Except.ok "rectangle"
  | DrawingItem.curve p1 p2 p3 =>
      match is_circle (DrawingItem.curve p1 p2 p3) with
      | Except.error e => Except.error e
      | Except.ok true => Except.ok "circle"
      | Except.ok false => Except.ok "unknown"
  | DrawingItem.line _ _ => Except.ok "line"

structure PatternMatch where
  type : String
  confidence : ℝ
  reason : String

/-- Shape and area range rule table. -/
noncomputable def is_geometric_pattern_match (shape : String) (area : ℝ) : Option PatternMatch :=
  if shape = "circle" ∧ 10 ≤ area ∧ area ≤ 50 then
    some ⟨"LICHTPUNT", 0.7, "Circle pattern typical for ceiling light"⟩
  else if shape = "square" ∧ 4 ≤ area ∧ area ≤ 25 then
    some ⟨"WCD", 0.7, "Small square pattern typical for electrical outlet"⟩
  else if shape = "rectangle" ∧ 4 ≤ area ∧ area ≤ 36 ∧ 0 < area then
    some ⟨"SCHAKELAAR", 0.6, "Small rectangle pattern typical for switch"⟩
  else if shape = "line" ∧ 0 < area then
    some ⟨"WATERTAP", 0.5, "Line pattern that may represent water installation"⟩
  else none

/-- Area of a drawing item (length for lines, zero for non-circle curves). -/
noncomputable def calc_item_area : DrawingItem → Except Unit ℝ
  | DrawingItem.rect r => Except.ok (r.width * r.height)
  | DrawingItem.curve p1 p2 p3 =>
      match is_circle (DrawingItem.curve p1 p2 p3) with
      | Except.error e => Except.error e
      | Except.ok true =>
          Except.ok (Real.pi * (distance (curveCenter p1 p2 p3) p1) ^ 2)
      | Except.ok false => Except.ok 0
  | DrawingItem.line p1 p2 => Except.ok (distance p1 p2)

/-- Python str.upper restricted to the per-character mapping (all keywords
    in the tables are ASCII, where the two agree). -/
def textUpper (s : String) : String := ⟨s.data.map Char.toUpper⟩

/-- Substring containment over the character lists: the Python `in` operator
    on strings. -/
def strInAux (needle : List Char) : List Char → Bool
  | [] => needle.isPrefixOf []
  | c :: rest => needle.isPrefixOf (c :: rest) || strInAux needle rest

def strIn (needle hay : String) : Bool := strInAux needle.data hay.data

/-- Detected symbol record.  The optional fields reflect the keys that are
    present only on some of the dictionaries the source builds (text symbols
    carry text, geometric symbols carry shape, the sentinel carries neither
    position, bbox nor source). -/
structure Symbol where
  type : String
  label_code : String
  label_type : String
  label_nl : String
  label_en : String
  position : Option Pt
  text : Option String
  bbox : Option Bbox
  confidence : ℝ
  reason : String
  source : Option String
  shape : Option String

/-- Sentinel record returned when a page yields no detections. -/
noncomputable def sentinelSymbol : Symbol :=
  { type := "unknown", label_code := "UNKNOWN", label_type := "installation",
    label_nl := "Onbekende_installatie", label_en := "Unknown_installation",
    position := none, text := none, bbox := none, confidence := 0,
    reason := "No installation symbols detected", source := none, shape := none }

/-- Symbol built for a text keyword match (confidence 1.0, bbox centroid). -/
noncomputable def mkTextSymbol (t : TextItem) (stype : String) : Symbol :=
  { type := stype, label_code := (mappingGet stype).label_code,
    label_type := (mappingGet stype).label_type,
    label_nl := (mappingGet stype).label_nl, label_en := (mappingGet stype).label_en,
    position := some ⟨(t.bbox.x0 + t.bbox.x1) / 2, (t.bbox.y0 + t.bbox.y1) / 2⟩,
    text := some t.text, bbox := some t.bbox, confidence := 1,
    reason := "Text contains " ++ stype ++ " keyword", source := some "text",
    shape := none }

/-- All text symbols for one text element, in pattern-table order; there is
    no early exit, so one element may produce several symbols. -/
noncomputable def textSymbolsFor (t : TextItem) : List Symbol :=
  (INSTALLATION_PATTERNS.filter fun pat =>
      pat.2.any fun kw => strIn (textUpper kw) (textUpper t.text)).map
    fun pat => mkTextSymbol t pat.1

/-- Symbol built for a geometric pattern match. -/
noncomputable def mkGeomSymbol (pm : PatternMatch) (pos : Pt) (bb : Bbox)
    (shape : String) : Symbol :=
  { type := pm.type, label_code := (mappingGet pm.type).label_code,
    label_type := (mappingGet pm.type).label_type,
    label_nl := (mappingGet pm.type).label_nl, label_en := (mappingGet pm.type).label_en,
    position := some pos, text := none, bbox := some bb,
    confidence := pm.confidence, reason := pm.reason,
    source := some "geometric_pattern", shape := some shape }

/-- Duplicate scan over the accumulated list: some existing entry lies within
    distance 20 of the candidate position and has the same type. -/
noncomputable def isDup (symbols : List Symbol) (pos : Pt) (stype : String) : Prop :=
  ∃ s ∈ symbols, distance (s.position.getD ⟨0, 0⟩) pos < 20 ∧ s.type = stype

/-- Append a geometric candidate unless the duplicate scan suppresses it. -/
noncomputable def dedup_append (symbols : List Symbol) (cand : Symbol) : List Symbol :=
  if isDup symbols (cand.position.getD ⟨0, 0⟩) cand.type then symbols
  else symbols ++ [cand]

/-- Rectangle pass body: classify, compute area, match, dedup, append. -/
noncomputable def processRect (symbols : List Symbol) (r : RectD) :
    Except Unit (List Symbol) :=
  match get_symbol_shape (DrawingItem.rect r) with
  | Except.error e => Except.error e
  | Except.ok shape =>
    match calc_item_area (DrawingItem.rect r) with
    | Except.error e => Except.error e
    | Except.ok area =>
      match is_geometric_pattern_match shape area with
      | none => Except.ok symbols
      | some pm =>
          Except.ok (dedup_append symbols
            (mkGeomSymbol pm ⟨(r.x0 + r.x1) / 2, (r.y0 + r.y1) / 2⟩
              ⟨r.x0, r.y0, r.x1, r.y1⟩ shape))

/-- Curve pass body: position is the three-point centroid, bbox the
    min and max envelope of the three points. -/
noncomputable def processCurve (symbols : List Symbol) (cv : CurveD) :
    Except Unit (List Symbol) :=
  match get_symbol_shape (DrawingItem.curve cv.p1 cv.p2 cv.p3) with
  | Except.error e => Except.error e
  | Except.ok shape =>
    match calc_item_area (DrawingItem.curve cv.p1 cv.p2 cv.p3) with
    | Except.error e => Except.error e
    | Except.ok area =>
      match is_geometric_pattern_match shape area with
      | none => Except.ok symbols
      | some pm =>
          Except.ok (dedup_append symbols
            (mkGeomSymbol pm (curveCenter cv.p1 cv.p2 cv.p3)
              ⟨min (min cv.p1.x cv.p2.x) cv.p3.x, min (min cv.p1.y cv.p2.y) cv.p3.y,
               max (max cv.p1.x cv.p2.x) cv.p3.x, max (max cv.p1.y cv.p2.y) cv.p3.y⟩
              shape))

/-- Line pass body: only WATERTAP or DRAIN typed matches are kept; position
    is the midpoint, bbox the envelope of the two endpoints. -/
noncomputable def processLine (symbols : List Symbol) (ln : LineD) :
    Except Unit (List Symbol) :=
  match get_symbol_shape (DrawingItem.line ln.p1 ln.p2) with
  | Except.error e => Except.error e
  | Except.ok shape =>
    match calc_item_area (DrawingItem.line ln.p1 ln.p2) with
    | Except.error e => Except.error e
    | Except.ok area =>
      match is_geometric_pattern_match shape area with
      | none => Except.ok symbols
      | some pm =>
          if pm.type = "WATERTAP" ∨ pm.type = "DRAIN" then
            Except.ok (dedup_append symbols
              (mkGeomSymbol pm ⟨(ln.p1.x + ln.p2.x) / 2, (ln.p1.y + ln.p2.y) / 2⟩
                ⟨min ln.p1.x ln.p2.x, min ln.p1.y ln.p2.y,
                 max ln.p1.x ln.p2.x, max ln.p1.y ln.p2.y⟩ shape))
          else Except.ok symbols

/-- Accumulated symbol list before the sentinel replacement: all text matches
    first, then rectangles, then curves, then lines. -/
noncomputable def extractCore (page : PageData) : Except Unit (List Symbol) :=
  match List.foldlM processRect ((page.texts.map textSymbolsFor).flatten)
      page.rectangles with
  | Except.error e => Except.error e
  | Except.ok s1 =>
    match List.foldlM processCurve s1 page.curves with
    | Except.error e => Except.error e
    | Except.ok s2 => List.foldlM processLine s2 page.lines

/-- Per-page extraction: an empty accumulated list is replaced with the
    single sentinel record. -/
noncomputable def extract_installation_symbols (page : PageData) :
    Except Unit (List Symbol) :=
  match extractCore page with
  | Except.error e => Except.error e
  | Except.ok symbols =>
      Except.ok (if symbols.isEmpty then [sentinelSymbol] else symbols)

structure PageResult where
  page_number : Int
  symbols : List Symbol

/-- Batch endpoint body: one result per page, in input order; any error
    aborts the whole request. -/
noncomputable def detect_installations : List PageData → Except Unit (List PageResult)
  | [] => Except.ok []
  | p :: rest =>
    match extract_installation_symbols p with
    | Except.error e => Except.error e
    | Except.ok syms =>
      match detect_installations rest with
      | Except.error e => Except.error e
      | Except.ok results => Except.ok (PageResult.mk p.page_number syms :: results)

/-! Characterizations of the geometric rule table, one per shape string. -/

lemma igpm_circle (a : ℝ) :
    is_geometric_pattern_match "circle" a =
      if 10 ≤ a ∧ a ≤ 50 then
        some ⟨"LICHTPUNT", 0.7, "Circle pattern typical for ceiling light"⟩
      else none := by
  by_cases h : 10 ≤ a ∧ a ≤ 50
  · simp [is_geometric_pattern_match, h, h.1, h.2]
  · simp [is_geometric_pattern_match, h]

lemma igpm_square (a : ℝ) :
    is_geometric_pattern_match "square" a =
      if 4 ≤ a ∧ a ≤ 25 then
        some ⟨"WCD", 0.7, "Small square pattern typical for electrical outlet"⟩
      else none := by
  by_cases h : 4 ≤ a ∧ a ≤ 25
  · simp [is_geometric_pattern_match, h, h.1, h.2]
  · simp [is_geometric_pattern_match, h]

lemma igpm_rectangle (a : ℝ) :
    is_geometric_pattern_match "rectangle" a =
      if 4 ≤ a ∧ a ≤ 36 then
        some ⟨"SCHAKELAAR", 0.6, "Small rectangle pattern typical for switch"⟩
      else none := by
  by_cases h : 4 ≤ a ∧ a ≤ 36
  · have h0 : (0 : ℝ) < a := lt_of_lt_of_le (by norm_num) h.1
    simp [is_geometric_pattern_match, h, h.1, h.2, h0]
  · have h3 : ¬ (4 ≤ a ∧ a ≤ 36 ∧ 0 < a) := fun hc => h ⟨hc.1, hc.2.1⟩
    simp [is_geometric_pattern_match, h, h3]

lemma igpm_line (a : ℝ) :
    is_geometric_pattern_match "line" a =
      if 0 < a then
        some ⟨"WATERTAP", 0.5, "Line pattern that may represent water installation"⟩
      else none := by
  by_cases h : 0 < a
  · simp [is_geometric_pattern_match, h]
  · simp [is_geometric_pattern_match, h]

lemma igpm_unknown (a : ℝ) : is_geometric_pattern_match "unknown" a = none := by
  simp [is_geometric_pattern_match]

/-- C7: the circle rule of the geometric matcher fires with type LICHTPUNT
    and confidence 0.7 exactly for areas in the closed interval from 10 to
    50; both endpoints match, while 9.99 and 50.01 do not. -/
theorem C7_circle_area_bounds :
    (∀ a : ℝ,
        (is_geometric_pattern_match "circle" a =
            some ⟨"LICHTPUNT", 0.7, "Circle pattern typical for ceiling light"⟩ ↔
          10 ≤ a ∧ a ≤ 50)) ∧
    is_geometric_pattern_match "circle" 10 =
      some ⟨"LICHTPUNT", 0.7, "Circle pattern typical for ceiling light"⟩ ∧
    is_geometric_pattern_match "circle" 50 =
      some ⟨"LICHTPUNT", 0.7, "Circle pattern typical for ceiling light"⟩ ∧
    is_geometric_pattern_match "circle" 9.99 = none ∧
    is_geometric_pattern_match "circle" 50.01 = none := by
  refine ⟨fun a => ?_, ?_, ?_, ?_, ?_⟩
  · rw [igpm_circle]
    constructor
    · intro he
      by_contra h
      rw [if_neg h] at he
      cases he
    · intro h
      rw [if_pos h]
  · rw [igpm_circle, if_pos (by norm_num)]
  · rw [igpm_circle, if_pos (by norm_num)]
  · rw [igpm_circle, if_neg (by norm_num)]
  · rw [igpm_circle, if_neg (by norm_num)]

/-- C2 counterexample: a primitive classified as shape rectangle with area 1
    (inside the claimed interval, since 0 < 1 and 1 is at most 36) produces
    no geometric match at all. -/
theorem C2_counterexample :
    get_symbol_shape (DrawingItem.rect ⟨0, 0, 2, 0.5, 2, 0.5⟩) = Except.ok "rectangle" ∧
    calc_item_area (DrawingItem.rect ⟨0, 0, 2, 0.5, 2, 0.5⟩) = Except.ok 1 ∧
    ((0 : ℝ) < 1 ∧ (1 : ℝ) ≤ 36) ∧
    is_geometric_pattern_match "rectangle" 1 = none := by
  refine ⟨?_, ?_, by norm_num, ?_⟩
  · simp only [get_symbol_shape]
    rw [if_neg (by norm_num), if_neg (by norm_num)]
  · simp only [calc_item_area]
    norm_num
  · rw [igpm_rectangle, if_neg (by norm_num)]

/-- C2 amended: for shape rectangle the matcher yields the SCHAKELAAR record
    with confidence 0.6 exactly when the area lies in the closed interval
    from 4 to 36, and yields no match at all outside it. -/
theorem C2_amended_rectangle_bounds :
    ∀ a : ℝ,
      (is_geometric_pattern_match "rectangle" a =
          some ⟨"SCHAKELAAR", 0.6, "Small rectangle pattern typical for switch"⟩ ↔
        4 ≤ a ∧ a ≤ 36) ∧
      (¬ (4 ≤ a ∧ a ≤ 36) → is_geometric_pattern_match "rectangle" a = none) := by
  intro a
  constructor
  · rw [igpm_rectangle]
    constructor
    · intro he
      by_contra h
      rw [if_neg h] at he
      cases he
    · intro h
      rw [if_pos h]
  · intro h
    rw [igpm_rectangle, if_neg h]

/-- C2 amended witness at area 16. -/
theorem C2_amended_witness :
    is_geometric_pattern_match "rectangle" 16 =
      some ⟨"SCHAKELAAR", 0.6, "Small rectangle pattern typical for switch"⟩ :=
  (C2_amended_rectangle_bounds 16).1.mpr (by norm_num)

/-- C3: on a curve whose three points coincide the average distance from the
    centroid is zero and the circle test hits the unguarded division,
    modelling the ZeroDivisionError the source raises there. -/
theorem C3_coincident_points_error :
    is_circle (DrawingItem.curve ⟨0, 0⟩ ⟨0, 0⟩ ⟨0, 0⟩) = Except.error () := by
  have hc : curveCenter ⟨0, 0⟩ ⟨0, 0⟩ ⟨0, 0⟩ = (⟨0, 0⟩ : Pt) := by
    simp only [curveCenter, Pt.mk.injEq]
    norm_num
  have hd : distance ⟨0, 0⟩ ⟨0, 0⟩ = 0 := by
    simp [distance]
  simp only [is_circle, hc, hd]
  norm_num

/-- C5: a degenerate rectangle of height zero sends the shape classifier
    into the unguarded width over height division, modelling the
    ZeroDivisionError the source raises there. -/
theorem C5_zero_height_error :
    get_symbol_shape (DrawingItem.rect ⟨0, 0, 5, 0, 5, 0⟩) = Except.error () := by
  simp only [get_symbol_shape]
  norm_num

/-- C4 counterexample: the points lie exactly on the circle of center the
    origin and radius 5, yet the circle test classifies the curve as not a
    circle, because the three-point centroid is not the circle center. -/
theorem C4_counterexample :
    distance ⟨0, 0⟩ ⟨3, 4⟩ = 5 ∧ distance ⟨0, 0⟩ ⟨5, 0⟩ = 5 ∧
    distance ⟨0, 0⟩ ⟨3, -4⟩ = 5 ∧
    is_circle (DrawingItem.curve ⟨3, 4⟩ ⟨5, 0⟩ ⟨3, -4⟩) = Except.ok false := by
  refine ⟨?_, ?_, ?_, ?_⟩
  · show Real.sqrt (((3 : ℝ) - 0) ^ 2 + ((4 : ℝ) - 0) ^ 2) = 5
    rw [show ((3 : ℝ) - 0) ^ 2 + ((4 : ℝ) - 0) ^ 2 = 5 ^ 2 by norm_num,
      Real.sqrt_sq (by norm_num)]
  · show Real.sqrt (((5 : ℝ) - 0) ^ 2 + ((0 : ℝ) - 0) ^ 2) = 5
    rw [show ((5 : ℝ) - 0) ^ 2 + ((0 : ℝ) - 0) ^ 2 = 5 ^ 2 by norm_num,
      Real.sqrt_sq (by norm_num)]
  · show Real.sqrt (((3 : ℝ) - 0) ^ 2 + ((-4 : ℝ) - 0) ^ 2) = 5
    rw [show ((3 : ℝ) - 0) ^ 2 + ((-4 : ℝ) - 0) ^ 2 = 5 ^ 2 by norm_num,
      Real.sqrt_sq (by norm_num)]
  · have hcen : curveCenter ⟨3, 4⟩ ⟨5, 0⟩ ⟨3, -4⟩ = (⟨11 / 3, 0⟩ : Pt) := by
      simp only [curveCenter, Pt.mk.injEq]
      norm_num
    have hd1 : distance ⟨11 / 3, 0⟩ ⟨3, 4⟩ = Real.sqrt (148 / 9) := by
      show Real.sqrt (((3 : ℝ) - 11 / 3) ^ 2 + ((4 : ℝ) - 0) ^ 2) = _
      norm_num
    have hd2 : distance ⟨11 / 3, 0⟩ ⟨5, 0⟩ = 4 / 3 := by
      show Real.sqrt (((5 : ℝ) - 11 / 3) ^ 2 + ((0 : ℝ) - 0) ^ 2) = _
      rw [show ((5 : ℝ) - 11 / 3) ^ 2 + ((0 : ℝ) - 0) ^ 2 = (4 / 3) ^ 2 by norm_num,
        Real.sqrt_sq (by norm_num)]
    have hd3 : distance ⟨11 / 3, 0⟩ ⟨3, -4⟩ = Real.sqrt (148 / 9) := by
      show Real.sqrt (((3 : ℝ) - 11 / 3) ^ 2 + ((-4 : ℝ) - 0) ^ 2) = _
      norm_num
    simp only [is_circle, hcen, hd1, hd2, hd3]
    have hs0 : 0 ≤ Real.sqrt (148 / 9) := Real.sqrt_nonneg _
    have hs2 : Real.sqrt (148 / 9) ^ 2 = 148 / 9 := Real.sq_sqrt (by norm_num)
    have hs83 : 8 / 3 ≤ Real.sqrt (148 / 9) := by nlinarith
    have havg : (0 : ℝ) < (Real.sqrt (148 / 9) + 4 / 3 + Real.sqrt (148 / 9)) / 3 := by
      nlinarith
    rw [if_neg (ne_of_gt havg)]
    have hcond : ¬ (|Real.sqrt (148 / 9) -
          (Real.sqrt (148 / 9) + 4 / 3 + Real.sqrt (148 / 9)) / 3| /
          ((Real.sqrt (148 / 9) + 4 / 3 + Real.sqrt (148 / 9)) / 3) < 0.2 ∧
        |4 / 3 - (Real.sqrt (148 / 9) + 4 / 3 + Real.sqrt (148 / 9)) / 3| /
          ((Real.sqrt (148 / 9) + 4 / 3 + Real.sqrt (148 / 9)) / 3) < 0.2 ∧
        |Real.sqrt (148 / 9) -
          (Real.sqrt (148 / 9) + 4 / 3 + Real.sqrt (148 / 9)) / 3| /
          ((Real.sqrt (148 / 9) + 4 / 3 + Real.sqrt (148 / 9)) / 3) < 0.2) := by
      intro hfull
      have h1 := hfull.1
      rw [div_lt_iff₀ havg] at h1
      have habs : |Real.sqrt (148 / 9) -
          (Real.sqrt (148 / 9) + 4 / 3 + Real.sqrt (148 / 9)) / 3| =
          Real.sqrt (148 / 9) -
          (Real.sqrt (148 / 9) + 4 / 3 + Real.sqrt (148 / 9)) / 3 := by
        apply abs_of_nonneg
        nlinarith
      rw [habs] at h1
      nlinarith
    rw [if_neg hcond]

/-- C4 amended: the circle test accepts any curve whose three points are
    equidistant from their centroid at a positive common distance (for
    example three equally spaced points of a circle), and it rejects a
    configuration in which one point of an equilateral sample is displaced
    radially to double the radius. -/
theorem C4_amended_equidistant :
    (∀ (p1 p2 p3 : Pt) (r : ℝ), 0 < r →
        distance (curveCenter p1 p2 p3) p1 = r →
        distance (curveCenter p1 p2 p3) p2 = r →
        distance (curveCenter p1 p2 p3) p3 = r →
        is_circle (DrawingItem.curve p1 p2 p3) = Except.ok true) ∧
    is_circle (DrawingItem.curve ⟨4, 0⟩ ⟨-1, Real.sqrt 3⟩ ⟨-1, -Real.sqrt 3⟩) =
      Except.ok false := by
  constructor
  · intro p1 p2 p3 r hr h1 h2 h3
    simp only [is_circle, h1, h2, h3]
    rw [show (r + r + r) / 3 = r from by ring, if_neg (ne_of_gt hr)]
    have hc : |r - r| / r < 0.2 ∧ |r - r| / r < 0.2 ∧ |r - r| / r < 0.2 := by
      norm_num
    rw [if_pos hc]
  · have h3 : Real.sqrt 3 ^ 2 = 3 := Real.sq_sqrt (by norm_num)
    have hcen : curveCenter ⟨4, 0⟩ ⟨-1, Real.sqrt 3⟩ ⟨-1, -Real.sqrt 3⟩ =
        (⟨2 / 3, 0⟩ : Pt) := by
      simp only [curveCenter, Pt.mk.injEq]
      constructor
      · norm_num
      · ring_nf
    have hd1 : distance ⟨2 / 3, 0⟩ ⟨4, 0⟩ = 10 / 3 := by
      show Real.sqrt (((4 : ℝ) - 2 / 3) ^ 2 + ((0 : ℝ) - 0) ^ 2) = _
      rw [show ((4 : ℝ) - 2 / 3) ^ 2 + ((0 : ℝ) - 0) ^ 2 = (10 / 3) ^ 2 by norm_num,
        Real.sqrt_sq (by norm_num)]
    have hd2 : distance ⟨2 / 3, 0⟩ ⟨-1, Real.sqrt 3⟩ = Real.sqrt (52 / 9) := by
      show Real.sqrt (((-1 : ℝ) - 2 / 3) ^ 2 + (Real.sqrt 3 - 0) ^ 2) = _
      congr 1
      linear_combination h3
    have hd3 : distance ⟨2 / 3, 0⟩ ⟨-1, -Real.sqrt 3⟩ = Real.sqrt (52 / 9) := by
      show Real.sqrt (((-1 : ℝ) - 2 / 3) ^ 2 + (-Real.sqrt 3 - 0) ^ 2) = _
      congr 1
      linear_combination h3
    simp only [is_circle, hcen, hd1, hd2, hd3]
    have ht0 : 0 ≤ Real.sqrt (52 / 9) := Real.sqrt_nonneg _
    have ht2 : Real.sqrt (52 / 9) ^ 2 = 52 / 9 := Real.sq_sqrt (by norm_num)
    have ht52 : Real.sqrt (52 / 9) ≤ 5 / 2 := by nlinarith
    have havg : (0 : ℝ) <
        (10 / 3 + Real.sqrt (52 / 9) + Real.sqrt (52 / 9)) / 3 := by nlinarith
    rw [if_neg (ne_of_gt havg)]
    have hcond : ¬ (|10 / 3 -
          (10 / 3 + Real.sqrt (52 / 9) + Real.sqrt (52 / 9)) / 3| /
          ((10 / 3 + Real.sqrt (52 / 9) + Real.sqrt (52 / 9)) / 3) < 0.2 ∧
        |Real.sqrt (52 / 9) -
          (10 / 3 + Real.sqrt (52 / 9) + Real.sqrt (52 / 9)) / 3| /
          ((10 / 3 + Real.sqrt (52 / 9) + Real.sqrt (52 / 9)) / 3) < 0.2 ∧
        |Real.sqrt (52 / 9) -
          (10 / 3 + Real.sqrt (52 / 9) + Real.sqrt (52 / 9)) / 3| /
          ((10 / 3 + Real.sqrt (52 / 9) + Real.sqrt (52 / 9)) / 3) < 0.2) := by
      intro hfull
      have h1 := hfull.1
      rw [div_lt_iff₀ havg] at h1
      have habs : |10 / 3 -
          (10 / 3 + Real.sqrt (52 / 9) + Real.sqrt (52 / 9)) / 3| =
          10 / 3 - (10 / 3 + Real.sqrt (52 / 9) + Real.sqrt (52 / 9)) / 3 := by
        apply abs_of_nonneg
        nlinarith
      rw [habs] at h1
      nlinarith
    rw [if_neg hcond]

/-- C4 amended witness: three equally spaced points of the circle of radius
    2 about the origin are accepted by the circle test. -/
theorem C4_amended_witness :
    is_circle (DrawingItem.curve ⟨2, 0⟩ ⟨-1, Real.sqrt 3⟩ ⟨-1, -Real.sqrt 3⟩) =
      Except.ok true := by
  have h3 : Real.sqrt 3 ^ 2 = 3 := Real.sq_sqrt (by norm_num)
  have hcen : curveCenter ⟨2, 0⟩ ⟨-1, Real.sqrt 3⟩ ⟨-1, -Real.sqrt 3⟩ =
      (⟨0, 0⟩ : Pt) := by
    simp only [curveCenter, Pt.mk.injEq]
    constructor
    · norm_num
    · ring_nf
  have hd1 : distance (curveCenter ⟨2, 0⟩ ⟨-1, Real.sqrt 3⟩ ⟨-1, -Real.sqrt 3⟩)
      ⟨2, 0⟩ = 2 := by
    rw [hcen]
    show Real.sqrt (((2 : ℝ) - 0) ^ 2 + ((0 : ℝ) - 0) ^ 2) = _
    rw [show ((2 : ℝ) - 0) ^ 2 + ((0 : ℝ) - 0) ^ 2 = 2 ^ 2 by norm_num,
      Real.sqrt_sq (by norm_num)]
  have hd2 : distance (curveCenter ⟨2, 0⟩ ⟨-1, Real.sqrt 3⟩ ⟨-1, -Real.sqrt 3⟩)
      ⟨-1, Real.sqrt 3⟩ = 2 := by
    rw [hcen]
    show Real.sqrt (((-1 : ℝ) - 0) ^ 2 + (Real.sqrt 3 - 0) ^ 2) = _
    rw [show ((-1 : ℝ) - 0) ^ 2 + (Real.sqrt 3 - 0) ^ 2 = 2 ^ 2 from by
      linear_combination h3, Real.sqrt_sq (by norm_num)]
  have hd3 : distance (curveCenter ⟨2, 0⟩ ⟨-1, Real.sqrt 3⟩ ⟨-1, -Real.sqrt 3⟩)
      ⟨-1, -Real.sqrt 3⟩ = 2 := by
    rw [hcen]
    show Real.sqrt (((-1 : ℝ) - 0) ^ 2 + (-Real.sqrt 3 - 0) ^ 2) = _
    rw [show ((-1 : ℝ) - 0) ^ 2 + (-Real.sqrt 3 - 0) ^ 2 = 2 ^ 2 from by
      linear_combination h3, Real.sqrt_sq (by norm_num)]
  exact C4_amended_equidistant.1 _ _ _ 2 (by norm_num) hd1 hd2 hd3

lemma two_le_length_of_mem {α : Type} {a b : α} {l : List α}
    (ha : a ∈ l) (hb : b ∈ l) (hab : a ≠ b) : 2 ≤ l.length := by
  induction l with
  | nil => cases ha
  | cons x xs ih =>
    rcases List.mem_cons.mp ha with rfl | ha2
    · rcases List.mem_cons.mp hb with rfl | hb2
      · exact absurd rfl hab
      · have hx : 0 < xs.length := List.length_pos.mpr (List.ne_nil_of_mem hb2)
        simp only [List.length_cons]
        omega
    · have hx : 0 < xs.length := List.length_pos.mpr (List.ne_nil_of_mem ha2)
      simp only [List.length_cons]
      omega

/-- A pattern entry whose keyword list matches the text contributes the
    corresponding text symbol to the per-element output. -/
lemma mem_textSymbolsFor_of_match {t : TextItem} {ty : String} {kws : List String}
    (hmem : (ty, kws) ∈ INSTALLATION_PATTERNS)
    (hkw : ∃ kw ∈ kws, strIn (textUpper kw) (textUpper t.text) = true) :
    mkTextSymbol t ty ∈ textSymbolsFor t := by
  unfold textSymbolsFor
  apply List.mem_map.mpr
  refine ⟨(ty, kws), ?_, rfl⟩
  apply List.mem_filter.mpr
  refine ⟨hmem, ?_⟩
  simpa [List.any_eq_true] using hkw

/-- C6: every pattern-table entry with a keyword occurring (after upper
    casing) as a substring of the text yields a text detection of that type
    with confidence 1.0 and source text, and two distinct matching types
    yield two independent detections. -/
theorem C6_text_matcher :
    (∀ (t : TextItem) (ty : String) (kws : List String),
        (ty, kws) ∈ INSTALLATION_PATTERNS →
        (∃ kw ∈ kws, strIn (textUpper kw) (textUpper t.text) = true) →
        ∃ s ∈ textSymbolsFor t,
          s.type = ty ∧ s.confidence = 1 ∧ s.source = some "text") ∧
    (∀ (t : TextItem) (ty1 : String) (kws1 : List String) (ty2 : String)
        (kws2 : List String),
        (ty1, kws1) ∈ INSTALLATION_PATTERNS →
        (ty2, kws2) ∈ INSTALLATION_PATTERNS →
        ty1 ≠ ty2 →
        (∃ kw ∈ kws1, strIn (textUpper kw) (textUpper t.text) = true) →
        (∃ kw ∈ kws2, strIn (textUpper kw) (textUpper t.text) = true) →
        (∃ s ∈ textSymbolsFor t,
          s.type = ty1 ∧ s.confidence = 1 ∧ s.source = some "text") ∧
        (∃ s ∈ textSymbolsFor t,
          s.type = ty2 ∧ s.confidence = 1 ∧ s.source = some "text") ∧
        2 ≤ (textSymbolsFor t).length) := by
  constructor
  · intro t ty kws hmem hkw
    exact ⟨mkTextSymbol t ty, mem_textSymbolsFor_of_match hmem hkw,
      rfl, rfl, rfl⟩
  · intro t ty1 kws1 ty2 kws2 hm1 hm2 hne hkw1 hkw2
    refine ⟨⟨mkTextSymbol t ty1, mem_textSymbolsFor_of_match hm1 hkw1,
        rfl, rfl, rfl⟩,
      ⟨mkTextSymbol t ty2, mem_textSymbolsFor_of_match hm2 hkw2,
        rfl, rfl, rfl⟩, ?_⟩
    have h1 := mem_textSymbolsFor_of_match hm1 hkw1
    have h2 := mem_textSymbolsFor_of_match hm2 hkw2
    refine two_le_length_of_mem h1 h2 ?_
    intro hcontra
    exact hne (congrArg Symbol.type hcontra)

lemma except_pure_eq {α : Type} (a : α) : (pure a : Except Unit α) = Except.ok a := rfl

lemma except_bind_ok {α β : Type} (a : α) (g : α → Except Unit β) :
    (Except.ok a >>= g : Except Unit β) = g a := rfl

lemma except_bind_error {α β : Type} (e : Unit) (g : α → Except Unit β) :
    (Except.error e >>= g : Except Unit β) = Except.error e := rfl

lemma dedup_append_suppressed {syms : List Symbol} {cand : Symbol} (s : Symbol)
    (hs : s ∈ syms)
    (hd : distance (s.position.getD ⟨0, 0⟩) (cand.position.getD ⟨0, 0⟩) < 20)
    (ht : s.type = cand.type) : dedup_append syms cand = syms := by
  unfold dedup_append
  rw [if_pos ⟨s, hs, hd, ht⟩]

lemma dedup_append_kept {syms : List Symbol} {cand : Symbol}
    (h : ¬ isDup syms (cand.position.getD ⟨0, 0⟩) cand.type) :
    dedup_append syms cand = syms ++ [cand] := by
  unfold dedup_append
  rw [if_neg h]

lemma dedup_append_cases (syms : List Symbol) (cand : Symbol) :
    dedup_append syms cand = syms ∨ dedup_append syms cand = syms ++ [cand] := by
  unfold dedup_append
  split
  · exact Or.inl rfl
  · exact Or.inr rfl

lemma dedup_append_mem {syms : List Symbol} {cand s : Symbol}
    (h : s ∈ dedup_append syms cand) : s ∈ syms ∨ s = cand := by
  unfold dedup_append at h
  split at h
  · exact Or.inl h
  · rcases List.mem_append.mp h with h2 | h2
    · exact Or.inl h2
    · exact Or.inr (List.mem_singleton.mp h2)

/-- Every record the rule table can return carries one of the four
    geometric symbol types. -/
lemma igpm_types {shape : String} {a : ℝ} {pm : PatternMatch}
    (h : is_geometric_pattern_match shape a = some pm) :
    pm.type = "LICHTPUNT" ∨ pm.type = "WCD" ∨ pm.type = "SCHAKELAAR" ∨
      pm.type = "WATERTAP" := by
  unfold is_geometric_pattern_match at h
  split_ifs at h
  · injection h with h2
    subst h2
    exact Or.inl rfl
  · injection h with h2
    subst h2
    exact Or.inr (Or.inl rfl)
  · injection h with h2
    subst h2
    exact Or.inr (Or.inr (Or.inl rfl))
  · injection h with h2
    subst h2
    exact Or.inr (Or.inr (Or.inr rfl))

/-- Outcome shape of one rectangle pass step. -/
lemma processRect_structure (syms : List Symbol) (r : RectD) (out : List Symbol)
    (h : processRect syms r = Except.ok out) :
    out = syms ∨ ∃ c, c.source = some "geometric_pattern" ∧
      (c.type = "LICHTPUNT" ∨ c.type = "WCD" ∨ c.type = "SCHAKELAAR" ∨
        c.type = "WATERTAP") ∧
      c.label_code = (mappingGet c.type).label_code ∧
      out = dedup_append syms c := by
  unfold processRect at h
  split at h
  · exact Except.noConfusion h
  · split at h
    · exact Except.noConfusion h
    · split at h
      · exact Or.inl (Except.ok.inj h).symm
      · rename_i pm hpm
        exact Or.inr ⟨_, rfl, igpm_types hpm, rfl, (Except.ok.inj h).symm⟩

/-- Outcome shape of one curve pass step. -/
lemma processCurve_structure (syms : List Symbol) (cv : CurveD) (out : List Symbol)
    (h : processCurve syms cv = Except.ok out) :
    out = syms ∨ ∃ c, c.source = some "geometric_pattern" ∧
      (c.type = "LICHTPUNT" ∨ c.type = "WCD" ∨ c.type = "SCHAKELAAR" ∨
        c.type = "WATERTAP") ∧
      c.label_code = (mappingGet c.type).label_code ∧
      out = dedup_append syms c := by
  unfold processCurve at h
  split at h
  · exact Except.noConfusion h
  · split at h
    · exact Except.noConfusion h
    · split at h
      · exact Or.inl (Except.ok.inj h).symm
      · rename_i pm hpm
        exact Or.inr ⟨_, rfl, igpm_types hpm, rfl, (Except.ok.inj h).symm⟩

/-- Outcome shape of one line pass step. -/
lemma processLine_structure (syms : List Symbol) (ln : LineD) (out : List Symbol)
    (h : processLine syms ln = Except.ok out) :
    out = syms ∨ ∃ c, c.source = some "geometric_pattern" ∧
      (c.type = "LICHTPUNT" ∨ c.type = "WCD" ∨ c.type = "SCHAKELAAR" ∨
        c.type = "WATERTAP") ∧
      c.label_code = (mappingGet c.type).label_code ∧
      out = dedup_append syms c := by
  unfold processLine at h
  split at h
  · exact Except.noConfusion h
  · split at h
    · exact Except.noConfusion h
    · split at h
      · exact Or.inl (Except.ok.inj h).symm
      · rename_i pm hpm
        split at h
        · exact Or.inr ⟨_, rfl, igpm_types hpm, rfl, (Except.ok.inj h).symm⟩
        · exact Or.inl (Except.ok.inj h).symm

lemma step_extends {syms out : List Symbol}
    (h : out = syms ∨ ∃ c, c.source = some "geometric_pattern" ∧
      (c.type = "LICHTPUNT" ∨ c.type = "WCD" ∨ c.type = "SCHAKELAAR" ∨
        c.type = "WATERTAP") ∧
      c.label_code = (mappingGet c.type).label_code ∧
      out = dedup_append syms c) :
    ∃ t, out = syms ++ t := by
  rcases h with h1 | ⟨c, -, -, -, h1⟩
  · exact ⟨[], by rw [h1, List.append_nil]⟩
  · rcases dedup_append_cases syms c with h2 | h2
    · exact ⟨[], by rw [h1, h2, List.append_nil]⟩
    · exact ⟨[c], by rw [h1, h2]⟩

lemma step_labels {syms out : List Symbol}
    (h : out = syms ∨ ∃ c, c.source = some "geometric_pattern" ∧
      (c.type = "LICHTPUNT" ∨ c.type = "WCD" ∨ c.type = "SCHAKELAAR" ∨
        c.type = "WATERTAP") ∧
      c.label_code = (mappingGet c.type).label_code ∧
      out = dedup_append syms c)
    (hq : ∀ s ∈ syms, s.label_code ≠ "UNKNOWN") :
    ∀ s ∈ out, s.label_code ≠ "UNKNOWN" := by
  rcases h with h1 | ⟨c, hsrc, hty, hlab, h1⟩
  · intro s hs
    exact hq s (h1 ▸ hs)
  · intro s hs
    rw [h1] at hs
    rcases dedup_append_mem hs with h2 | h2
    · exact hq s h2
    · rw [h2, hlab]
      rcases hty with h4 | h4 | h4 | h4 <;> rw [h4] <;> decide

lemma foldlM_extends {α : Type} (f : List Symbol → α → Except Unit (List Symbol))
    (hf : ∀ syms a out, f syms a = Except.ok out → ∃ t, out = syms ++ t) :
    ∀ (l : List α) (syms out : List Symbol),
      List.foldlM f syms l = Except.ok out → ∃ t, out = syms ++ t := by
  intro l
  induction l with
  | nil =>
    intro syms out h
    rw [List.foldlM_nil, except_pure_eq] at h
    exact ⟨[], by rw [(Except.ok.inj h), List.append_nil]⟩
  | cons a l ih =>
    intro syms out h
    rw [List.foldlM_cons] at h
    cases hfa : f syms a with
    | error e =>
      rw [hfa, except_bind_error] at h
      exact Except.noConfusion h
    | ok mid =>
      rw [hfa, except_bind_ok] at h
      obtain ⟨t1, ht1⟩ := hf syms a mid hfa
      obtain ⟨t2, ht2⟩ := ih mid out h
      exact ⟨t1 ++ t2, by rw [ht2, ht1, List.append_assoc]⟩

lemma foldlM_pres {α : Type} (f : List Symbol → α → Except Unit (List Symbol))
    (Q : Symbol → Prop)
    (hf : ∀ syms a out, f syms a = Except.ok out →
        (∀ s ∈ syms, Q s) → ∀ s ∈ out, Q s) :
    ∀ (l : List α) (syms out : List Symbol),
      List.foldlM f syms l = Except.ok out → (∀ s ∈ syms, Q s) → ∀ s ∈ out, Q s := by
  intro l
  induction l with
  | nil =>
    intro syms out h hq
    rw [List.foldlM_nil, except_pure_eq] at h
    rw [← Except.ok.inj h]
    exact hq
  | cons a l ih =>
    intro syms out h hq
    rw [List.foldlM_cons] at h
    cases hfa : f syms a with
    | error e =>
      rw [hfa, except_bind_error] at h
      exact Except.noConfusion h
    | ok mid =>
      rw [hfa, except_bind_ok] at h
      exact ih mid out h (hf syms a mid hfa hq)

noncomputable def c6Text : TextItem := ⟨"WCD LAMP", ⟨0, 0, 0, 0⟩⟩

/-- C6 witness: the text WCD LAMP matches both the WCD and the LICHTPUNT
    keyword sets, so its text element yields at least two detections. -/
theorem C6_witness : 2 ≤ (textSymbolsFor c6Text).length :=
  (C6_text_matcher.2 c6Text
    "WCD" ["WCD", "STOPCONTACT", "OUTLET", "SOCKET", "WANDCONTACTDOOS"]
    "LICHTPUNT" ["LICHTPUNT", "LIGHT", "VERLICHTING", "LAMP", "PL", "TL", "CEILING LIGHT"]
    (by decide) (by decide) (by decide) (by decide) (by decide)).2.2

/-- All accumulated symbols of a page start from the text matches; later
    passes only keep or append entries. -/
lemma extractCore_text_first (page : PageData) (out : List Symbol)
    (h : extractCore page = Except.ok out) :
    ∃ rest, out = (page.texts.map textSymbolsFor).flatten ++ rest := by
  unfold extractCore at h
  split at h
  · exact Except.noConfusion h
  · rename_i s1 h1
    split at h
    · exact Except.noConfusion h
    · rename_i s2 h2
      obtain ⟨t1, ht1⟩ := foldlM_extends processRect
        (fun syms r o hr => step_extends (processRect_structure syms r o hr))
        page.rectangles _ s1 h1
      obtain ⟨t2, ht2⟩ := foldlM_extends processCurve
        (fun syms cv o hc => step_extends (processCurve_structure syms cv o hc))
        page.curves s1 s2 h2
      obtain ⟨t3, ht3⟩ := foldlM_extends processLine
        (fun syms ln o hl => step_extends (processLine_structure syms ln o hl))
        page.lines s2 out h
      refine ⟨t1 ++ t2 ++ t3, ?_⟩
      rw [ht3, ht2, ht1]
      simp [List.append_assoc]

/-- Every label table entry used by a pattern key avoids the UNKNOWN code. -/
lemma pattern_label_codes :
    ∀ pat ∈ INSTALLATION_PATTERNS, (mappingGet pat.1).label_code ≠ "UNKNOWN" := by
  decide

lemma textSymbols_labels (page : PageData) :
    ∀ s ∈ (page.texts.map textSymbolsFor).flatten, s.label_code ≠ "UNKNOWN" := by
  intro s hs
  rcases List.mem_flatten.mp hs with ⟨l, hl, hsl⟩
  rcases List.mem_map.mp hl with ⟨t, -, rfl⟩
  rcases List.mem_map.mp hsl with ⟨pat, hpat, rfl⟩
  have hp : pat ∈ INSTALLATION_PATTERNS := (List.mem_filter.mp hpat).1
  exact pattern_label_codes pat hp

lemma extractCore_labels (page : PageData) (out : List Symbol)
    (h : extractCore page = Except.ok out) :
    ∀ s ∈ out, s.label_code ≠ "UNKNOWN" := by
  unfold extractCore at h
  split at h
  · exact Except.noConfusion h
  · rename_i s1 h1
    split at h
    · exact Except.noConfusion h
    · rename_i s2 h2
      have q0 := textSymbols_labels page
      have q1 := foldlM_pres processRect _
        (fun syms r o hr => step_labels (processRect_structure syms r o hr))
        page.rectangles _ s1 h1 q0
      have q2 := foldlM_pres processCurve _
        (fun syms cv o hc => step_labels (processCurve_structure syms cv o hc))
        page.curves s1 s2 h2 q1
      exact foldlM_pres processLine _
        (fun syms ln o hl => step_labels (processLine_structure syms ln o hl))
        page.lines s2 out h q2

/-! Concrete dedup scenario: a WCD text label at the center of bbox
    98..102 and a 4 by 4 rectangle centered at 105, 102. -/

noncomputable def c1Text : TextItem := ⟨"WCD", ⟨98, 98, 102, 102⟩⟩

noncomputable def c1Rect : RectD := ⟨103, 100, 107, 104, 4, 4⟩

noncomputable def c1Page : PageData := ⟨1, [c1Text], [c1Rect], [], []⟩

noncomputable def c1TextSymbol : Symbol := mkTextSymbol c1Text "WCD"

lemma c1_textSymbols : textSymbolsFor c1Text = [c1TextSymbol] := by
  have hfilter : (INSTALLATION_PATTERNS.filter fun pat =>
      pat.2.any fun kw => strIn (textUpper kw) (textUpper c1Text.text)) =
      [("WCD", ["WCD", "STOPCONTACT", "OUTLET", "SOCKET", "WANDCONTACTDOOS"])] := by
    decide
  unfold textSymbolsFor
  rw [hfilter]
  rfl

lemma c1_rect_shape : get_symbol_shape (DrawingItem.rect c1Rect) = Except.ok "square" := by
  simp only [get_symbol_shape, c1Rect]
  norm_num

lemma c1_rect_area : calc_item_area (DrawingItem.rect c1Rect) = Except.ok 16 := by
  simp only [calc_item_area, c1Rect]
  norm_num

lemma c1_geom_match : is_geometric_pattern_match "square" 16 =
    some ⟨"WCD", 0.7, "Small square pattern typical for electrical outlet"⟩ := by
  rw [igpm_square, if_pos (by norm_num)]

lemma c1_distance :
    distance ⟨(98 + 102) / 2, (98 + 102) / 2⟩
      ⟨(103 + 107) / 2, (100 + 104) / 2⟩ < 20 := by
  show Real.sqrt ((((103 : ℝ) + 107) / 2 - (98 + 102) / 2) ^ 2 +
    (((100 : ℝ) + 104) / 2 - (98 + 102) / 2) ^ 2) < 20
  rw [show (((103 : ℝ) + 107) / 2 - (98 + 102) / 2) ^ 2 +
      (((100 : ℝ) + 104) / 2 - (98 + 102) / 2) ^ 2 = 29 by norm_num]
  nlinarith [Real.sq_sqrt (show (0 : ℝ) ≤ 29 by norm_num),
    Real.sqrt_nonneg (29 : ℝ)]

lemma c1_rect_step : processRect [c1TextSymbol] c1Rect = Except.ok [c1TextSymbol] := by
  have hstep := @dedup_append_suppressed [c1TextSymbol]
    (mkGeomSymbol ⟨"WCD", 0.7, "Small square pattern typical for electrical outlet"⟩
      ⟨(103 + 107) / 2, (100 + 104) / 2⟩ ⟨103, 100, 107, 104⟩ "square")
    c1TextSymbol (List.mem_singleton.mpr rfl) c1_distance rfl
  simp only [processRect, c1_rect_shape, c1_rect_area, c1_geom_match]
  simp only [c1Rect]
  rw [hstep]

/-- End-to-end evaluation of the concrete page: the geometric WCD candidate
    is suppressed by the text WCD detection 5.4 units away. -/
lemma c1_eval : extract_installation_symbols c1Page = Except.ok [c1TextSymbol] := by
  have hcore : extractCore c1Page = Except.ok [c1TextSymbol] := by
    simp only [extractCore, show c1Page.texts = [c1Text] from rfl,
      show c1Page.rectangles = [c1Rect] from rfl,
      show c1Page.curves = ([] : List CurveD) from rfl,
      show c1Page.lines = ([] : List LineD) from rfl,
      List.map_cons, List.map_nil, List.flatten_cons, List.flatten_nil,
      List.append_nil, c1_textSymbols,
      List.foldlM_cons, List.foldlM_nil, c1_rect_step, except_bind_ok,
      except_pure_eq]
  simp only [extract_installation_symbols, hcore, List.isEmpty_cons,
    Bool.false_eq_true, if_false]

/-- C1: a geometric candidate is appended exactly when no accumulated entry
    of the same type lies within distance 20; the text pass appends
    unconditionally, so text detections are never dropped; and on the
    concrete page the suppressed rectangle leaves exactly the one text WCD
    detection. -/
theorem C1_dedup_merge :
    (∀ (syms : List Symbol) (cand : Symbol),
        (isDup syms (cand.position.getD ⟨0, 0⟩) cand.type →
          dedup_append syms cand = syms) ∧
        (¬ isDup syms (cand.position.getD ⟨0, 0⟩) cand.type →
          dedup_append syms cand = syms ++ [cand])) ∧
    (∀ (page : PageData) (out : List Symbol),
        extractCore page = Except.ok out →
        ∃ rest, out = (page.texts.map textSymbolsFor).flatten ++ rest) ∧
    extract_installation_symbols c1Page = Except.ok [c1TextSymbol] ∧
    c1TextSymbol.type = "WCD" ∧ c1TextSymbol.source = some "text" ∧
    c1TextSymbol.confidence = 1 := by
  refine ⟨fun syms cand => ⟨?_, ?_⟩, extractCore_text_first, c1_eval, rfl, rfl, rfl⟩
  · intro h
    unfold dedup_append
    rw [if_pos h]
  · intro h
    unfold dedup_append
    rw [if_neg h]

/-- C1 witness: the dedup branch taken on the concrete candidate. -/
theorem C1_witness :
    dedup_append [c1TextSymbol]
      (mkGeomSymbol ⟨"WCD", 0.7, "Small square pattern typical for electrical outlet"⟩
        ⟨(103 + 107) / 2, (100 + 104) / 2⟩ ⟨103, 100, 107, 104⟩ "square") =
      [c1TextSymbol] :=
  (C1_dedup_merge.1 _ _).1 ⟨c1TextSymbol, List.mem_singleton.mpr rfl,
    c1_distance, rfl⟩

/-- C8: a page whose passes accumulate nothing is reported as the single
    sentinel record of type unknown and confidence zero, and no page result
    is ever the empty list. -/
theorem C8_sentinel_on_empty :
    (∀ page, extractCore page = Except.ok [] →
        extract_installation_symbols page = Except.ok [sentinelSymbol]) ∧
    (∀ page out, extract_installation_symbols page = Except.ok out → out ≠ []) ∧
    sentinelSymbol.type = "unknown" ∧ sentinelSymbol.confidence = 0 := by
  refine ⟨?_, ?_, rfl, rfl⟩
  · intro page h
    simp only [extract_installation_symbols, h, List.isEmpty_nil, if_true]
  · intro page out h
    unfold extract_installation_symbols at h
    split at h
    · exact Except.noConfusion h
    · rename_i syms hcore
      have hout := Except.ok.inj h
      by_cases he : syms.isEmpty = true
      · rw [if_pos he] at hout
        rw [← hout]
        simp
      · rw [if_neg he] at hout
        rw [← hout]
        intro hnil
        rw [hnil] at he
        exact he rfl

noncomputable def c8Page : PageData := ⟨7, [], [], [], []⟩

/-- C8 witness: the empty page produces exactly the sentinel. -/
theorem C8_witness :
    extract_installation_symbols c8Page = Except.ok [sentinelSymbol] :=
  C8_sentinel_on_empty.1 c8Page rfl

/-- C10: every pattern key and every geometric type is present in the label
    table, and every detection that carries a source (that is, every
    non-sentinel record) carries a label code other than UNKNOWN. -/
theorem C10_no_unknown_labels :
    (∀ pat ∈ INSTALLATION_PATTERNS,
        (INSTALLATION_MAPPING.lookup pat.1).isSome = true) ∧
    (∀ ty ∈ (["LICHTPUNT", "WCD", "SCHAKELAAR", "WATERTAP"] : List String),
        (INSTALLATION_MAPPING.lookup ty).isSome = true) ∧
    (∀ page out, extract_installation_symbols page = Except.ok out →
        ∀ s ∈ out, s.source.isSome = true → s.label_code ≠ "UNKNOWN") := by
  refine ⟨by decide, by decide, ?_⟩
  intro page out h s hs hsrc
  unfold extract_installation_symbols at h
  split at h
  · exact Except.noConfusion h
  · rename_i syms hcore
    have hout := Except.ok.inj h
    by_cases he : syms.isEmpty = true
    · rw [if_pos he] at hout
      rw [← hout] at hs
      have hsent : s = sentinelSymbol := List.mem_singleton.mp hs
      rw [hsent] at hsrc
      exact absurd hsrc (by simp [sentinelSymbol])
    · rw [if_neg he] at hout
      rw [← hout] at hs
      exact extractCore_labels page syms hcore s hs

/-- C10 witness: the concrete text detection keeps its mapped label code. -/
theorem C10_witness : c1TextSymbol.label_code ≠ "UNKNOWN" :=
  C10_no_unknown_labels.2.2 c1Page [c1TextSymbol] c1_eval c1TextSymbol
    (List.mem_singleton.mpr rfl) rfl

/-- C9: the batch handler returns one result per page in input order, and
    the result at each index is the page number of that input page paired
    with the symbols its own extraction returns. -/
theorem C9_batch_order :
    ∀ (pages : List PageData) (res : List PageResult),
      detect_installations pages = Except.ok res →
      res.length = pages.length ∧
      ∀ (i : ℕ) (hi : i < pages.length) (syms : List Symbol),
        extract_installation_symbols (pages.get ⟨i, hi⟩) = Except.ok syms →
        res[i]? = some (PageResult.mk (pages.get ⟨i, hi⟩).page_number syms) := by
  intro pages
  induction pages with
  | nil =>
    intro res h
    simp only [detect_installations] at h
    rw [← Except.ok.inj h]
    exact ⟨rfl, fun i hi => absurd hi (by simp)⟩
  | cons p rest ih =>
    intro res h
    simp only [detect_installations] at h
    split at h
    · exact Except.noConfusion h
    · rename_i syms hsyms
      split at h
      · exact Except.noConfusion h
      · rename_i results hrest
        obtain ⟨ihlen, ihidx⟩ := ih results hrest
        rw [← Except.ok.inj h]
        constructor
        · simp [ihlen]
        · intro i hi syms2 hext
          cases i with
          | zero =>
            have hsame : syms2 = syms := by
              have := hsyms.symm.trans hext
              exact (Except.ok.inj this).symm
            rw [hsame]
            simp
          | succ n =>
            have hn : n < rest.length := by simpa using hi
            have hstep := ihidx n hn syms2 (by simpa using hext)
            simpa using hstep

noncomputable def c9Page : PageData := ⟨3, [], [], [], []⟩

/-- C9 witness: a one-page batch reports that page first with its own
    symbols and page number. -/
theorem C9_witness :
    ([PageResult.mk 3 [sentinelSymbol]])[0]? =
      some (PageResult.mk (([c9Page].get ⟨0, by norm_num⟩).page_number)
        [sentinelSymbol]) :=
  (C9_batch_order [c9Page] [PageResult.mk 3 [sentinelSymbol]] rfl).2 0
    (by norm_num) [sentinelSymbol] rfl

end InstallationAPI
